import Mathlib

/-
Verification of the Electron application lifecycle shell in src/main.js.

The shell registers three handlers against the host framework:
  * `app.whenReady().then(...)`   - runs once, calls `createWindow()` and then
    registers the `activate` handler;
  * `app.on('activate', ...)`     - recreates a window when none is open;
  * `app.on('window-all-closed', ...)` - quits unless on darwin.

We embed the shell shallowly: the commands it issues to Electron are data
(`Cmd`), the handlers become a step function on an explicit state, and the
host-owned window set is tracked by its cardinality, exactly as the shell
observes it through `BrowserWindow.getAllWindows().length`.
-/

namespace ElectronShell

/-- Node's `path.join(a, b)` as used in src/main.js line 10: joins two path
segments with a separator. -/
def pathJoin (a b : String) : String := a ++ "/" ++ b

/-- Commands the shell issues to the host framework (Electron):
`new BrowserWindow({width, height, webPreferences: {preload}})`,
`win.loadFile(path)`, and `app.quit()`. -/
inductive Cmd where
  | createWindow (width height : Nat) (preload : String)
  | loadFile (path : String)
  | quit
deriving DecidableEq, Repr

/-- True exactly on window-creation commands. -/
def Cmd.isCreate : Cmd → Bool
  | .createWindow _ _ _ => true
  | _ => false

/-- True exactly on content-load commands. -/
def Cmd.isLoad : Cmd → Bool
  | .loadFile _ => true
  | _ => false

/-- True exactly on the process-termination command. -/
def Cmd.isQuit : Cmd → Bool
  | .quit => true
  | _ => false

/-- The `createWindow` function of src/main.js lines 5-14, as the list of
commands it issues: construct a `BrowserWindow` with width 800, height 600
and a preload script at `path.join(__dirname, 'preload.js')`, then load
`'dist/index.html'` into it.  `dirname` stands for `__dirname`. -/
def createWindow (dirname : String) : List Cmd :=
  [Cmd.createWindow 800 600 (pathJoin dirname "preload.js"),
   Cmd.loadFile "dist/index.html"]

/-- Events the host framework delivers to the shell's handlers. -/
inductive HostEvent where
  | ready
  | activate
  | windowAllClosed
deriving DecidableEq, Repr

/-- The shell's own state: whether the `whenReady` continuation has run.
The continuation both creates the first window and registers the
`activate` handler, so `readyFired` also records that the activate
handler exists (src/main.js lines 15-21). -/
structure ShellState where
  readyFired : Bool
deriving DecidableEq, Repr

/-- The shell's reaction to one host event, given the observation
`windowCount = BrowserWindow.getAllWindows().length` that the activate
handler reads.  Returns the new shell state and the commands issued.

* `ready`: the `whenReady` promise resolves once, so the continuation runs
  at most once; it calls `createWindow()` and registers the activate
  handler (lines 15-21).
* `activate`: the handler exists only after ready; it calls
  `createWindow()` iff `getAllWindows().length === 0` (lines 17-20).
* `windowAllClosed`: registered at module load; quits iff
  `process.platform !== 'darwin'` (lines 22-25). -/
def handleEvent (platform dirname : String) (s : ShellState) (e : HostEvent)
    (windowCount : Nat) : ShellState × List Cmd :=
  match e with
  | .ready =>
      if s.readyFired then (s, [])
      else ({ readyFired := true }, createWindow dirname)
  | .activate =>
      if s.readyFired then
        if windowCount = 0 then (s, createWindow dirname) else (s, [])
      else (s, [])
  | .windowAllClosed =>
      if platform ≠ "darwin" then (s, [Cmd.quit]) else (s, [])

/-- System-level events: the host becomes ready, the application is
activated, or one open window closes.  When the last open window closes
the host fires `window-all-closed` at the shell. -/
inductive SysEvent where
  | ready
  | activate
  | closeWindow
deriving DecidableEq, Repr

/-- The combined state of the shell and the host-owned window set. -/
structure SysState where
  shell : ShellState
  windowCount : Nat
  terminated : Bool
deriving DecidableEq, Repr

/-- Initial state: module loaded, no window, process alive. -/
def init : SysState := ⟨⟨false⟩, 0, false⟩

/-- Effect of one shell command on the host: window creation opens one more
window, loading content changes no window count, `app.quit()` terminates
the process. -/
def applyCmd (s : SysState) (c : Cmd) : SysState :=
  match c with
  | .createWindow _ _ _ => { s with windowCount := s.windowCount + 1 }
  | .loadFile _ => s
  | .quit => { s with terminated := true }

/-- Effect of a command list, applied left to right. -/
def applyCmds (s : SysState) (cs : List Cmd) : SysState := cs.foldl applyCmd s

/-- One step of the whole system.  A terminated process handles no further
events.  A `closeWindow` event with no open window cannot occur in the
host and is a no-op; closing a window decrements the count and, when the
count reaches zero, the host fires `window-all-closed` at the shell. -/
def sysStep (platform dirname : String) (s : SysState) (e : SysEvent) :
    SysState × List Cmd :=
  if s.terminated then (s, [])
  else match e with
  | .ready =>
      let p := handleEvent platform dirname s.shell .ready s.windowCount
      (applyCmds { s with shell := p.1 } p.2, p.2)
  | .activate =>
      let p := handleEvent platform dirname s.shell .activate s.windowCount
      (applyCmds { s with shell := p.1 } p.2, p.2)
  | .closeWindow =>
      if s.windowCount = 0 then (s, [])
      else
        let s1 : SysState := { s with windowCount := s.windowCount - 1 }
        if s1.windowCount = 0 then
          let p := handleEvent platform dirname s1.shell .windowAllClosed 0
          (applyCmds { s1 with shell := p.1 } p.2, p.2)
        else (s1, [])

/-- Run the system over a sequence of host events, accumulating the full
command trace issued to the host framework. -/
def runTrace (platform dirname : String) : SysState → List SysEvent →
    SysState × List Cmd
  | s, [] => (s, [])
  | s, e :: es =>
      let p := sysStep platform dirname s e
      let q := runTrace platform dirname p.1 es
      (q.1, p.2 ++ q.2)

end ElectronShell

namespace ElectronShell

/-- Claim C1: when the host's ready event fires once, the on-ready handler
creates exactly one top-level window with width 800 and height 600 and
issues exactly one content-load command for the configured pre-built UI
document path `'dist/index.html'`. -/
theorem ready_creates_single_window (platform dirname : String) :
    (sysStep platform dirname init .ready).2 =
      [Cmd.createWindow 800 600 (pathJoin dirname "preload.js"),
       Cmd.loadFile "dist/index.html"] ∧
    ((sysStep platform dirname init .ready).2.countP Cmd.isCreate) = 1 ∧
    ((sysStep platform dirname init .ready).2.countP Cmd.isLoad) = 1 := by
  refine ⟨rfl, rfl, rfl⟩

/-- Claim C2: an activation event delivered while the open-window count is
zero (and the shell is past ready, still running) makes the on-activate
handler create exactly one new window, identical in configuration to the
initial window created on ready: the command list it issues is literally
the same as the on-ready one. -/
theorem activate_on_zero_creates_one (platform dirname : String) (s : SysState)
    (hready : s.shell.readyFired = true) (hterm : s.terminated = false)
    (hcount : s.windowCount = 0) :
    (sysStep platform dirname s .activate).2 = createWindow dirname ∧
    ((sysStep platform dirname s .activate).2.countP Cmd.isCreate) = 1 ∧
    (sysStep platform dirname s .activate).2 =
      (sysStep platform dirname init .ready).2 ∧
    (sysStep platform dirname s .activate).1.windowCount = 1 := by
  obtain ⟨⟨r⟩, n, t⟩ := s
  simp only at hready hterm hcount
  subst hready hterm hcount
  refine ⟨rfl, rfl, rfl, rfl⟩

/-- Witness for C2 at the concrete state reached after ready and a window
close: platform `"linux"`, dirname `"app"`. -/
theorem activate_on_zero_creates_one_witness :
    (sysStep "linux" "app" ⟨⟨true⟩, 0, false⟩ .activate).2 =
      createWindow "app" ∧
    ((sysStep "linux" "app" ⟨⟨true⟩, 0, false⟩ .activate).2.countP
      Cmd.isCreate) = 1 ∧
    (sysStep "linux" "app" ⟨⟨true⟩, 0, false⟩ .activate).2 =
      (sysStep "linux" "app" init .ready).2 ∧
    (sysStep "linux" "app" ⟨⟨true⟩, 0, false⟩ .activate).1.windowCount = 1 :=
  activate_on_zero_creates_one "linux" "app" ⟨⟨true⟩, 0, false⟩ rfl rfl rfl

/-- Claim C3: an activation event delivered while the open-window count is
non-zero creates no new window and leaves the whole system state
unchanged: the step is the identity and issues no command at all. -/
theorem activate_on_nonzero_noop (platform dirname : String) (s : SysState)
    (hcount : s.windowCount ≠ 0) :
    sysStep platform dirname s .activate = (s, []) := by
  obtain ⟨⟨r⟩, n, t⟩ := s
  simp only at hcount
  simp [sysStep, handleEvent, hcount]
  cases r <;> cases t <;> simp [hcount, applyCmds]

/-- Witness for C3: one open window, platform `"linux"`. -/
theorem activate_on_nonzero_noop_witness :
    sysStep "linux" "app" ⟨⟨true⟩, 1, false⟩ .activate =
      (⟨⟨true⟩, 1, false⟩, []) :=
  activate_on_nonzero_noop "linux" "app" ⟨⟨true⟩, 1, false⟩ (by decide)

/-- Claim C4: on a platform other than `"darwin"`, closing the last open
window makes the all-windows-closed handler issue the process-termination
command exactly once; the process is then terminated and no further event
is processed (every subsequent step is a no-op issuing no command). -/
theorem close_last_quits_once (platform dirname : String) (s : SysState)
    (hplat : platform ≠ "darwin") (hcount : s.windowCount = 1)
    (hterm : s.terminated = false) :
    (sysStep platform dirname s .closeWindow).2 = [Cmd.quit] ∧
    (sysStep platform dirname s .closeWindow).1.terminated = true ∧
    ∀ e : SysEvent,
      sysStep platform dirname (sysStep platform dirname s .closeWindow).1 e =
        ((sysStep platform dirname s .closeWindow).1, []) := by
  obtain ⟨⟨r⟩, n, t⟩ := s
  simp only at hcount hterm
  subst hcount hterm
  have h1 : sysStep platform dirname ⟨⟨r⟩, 1, false⟩ .closeWindow =
      (⟨⟨r⟩, 0, true⟩, [Cmd.quit]) := by
    simp [sysStep, handleEvent, hplat, applyCmds, applyCmd]
  refine ⟨by rw [h1], by rw [h1], ?_⟩
  intro e
  rw [h1]
  simp [sysStep]

/-- Witness for C4: platform `"linux"`, one open window. -/
theorem close_last_quits_once_witness :
    (sysStep "linux" "app" ⟨⟨true⟩, 1, false⟩ .closeWindow).2 = [Cmd.quit] ∧
    (sysStep "linux" "app" ⟨⟨true⟩, 1, false⟩ .closeWindow).1.terminated =
      true ∧
    ∀ e : SysEvent,
      sysStep "linux" "app"
          (sysStep "linux" "app" ⟨⟨true⟩, 1, false⟩ .closeWindow).1 e =
        ((sysStep "linux" "app" ⟨⟨true⟩, 1, false⟩ .closeWindow).1, []) :=
  close_last_quits_once "linux" "app" ⟨⟨true⟩, 1, false⟩ (by decide) rfl rfl

/-- Claim C5: on platform `"darwin"`, the all-windows-closed handler never
issues the process-termination command: after the last window closes the
process is still alive with an open-window count of zero and no command
was issued. -/
theorem darwin_close_keeps_alive (dirname : String) (s : SysState)
    (hcount : s.windowCount = 1) (hterm : s.terminated = false) :
    (sysStep "darwin" dirname s .closeWindow).2 = [] ∧
    (sysStep "darwin" dirname s .closeWindow).1.terminated = false ∧
    (sysStep "darwin" dirname s .closeWindow).1.windowCount = 0 := by
  obtain ⟨⟨r⟩, n, t⟩ := s
  simp only at hcount hterm
  subst hcount hterm
  refine ⟨rfl, rfl, rfl⟩

/-- Witness for C5: one open window on `"darwin"`. -/
theorem darwin_close_keeps_alive_witness :
    (sysStep "darwin" "app" ⟨⟨true⟩, 1, false⟩ .closeWindow).2 = [] ∧
    (sysStep "darwin" "app" ⟨⟨true⟩, 1, false⟩ .closeWindow).1.terminated =
      false ∧
    (sysStep "darwin" "app" ⟨⟨true⟩, 1, false⟩ .closeWindow).1.windowCount =
      0 :=
  darwin_close_keeps_alive "app" ⟨⟨true⟩, 1, false⟩ rfl rfl

/-- Auxiliary invariant: a state with an open window is past ready.  This is
preserved by every system step, since only the ready and activate
handlers create windows and both imply `readyFired` afterwards. -/
lemma winInv_step (p d : String) (s : SysState) (e : SysEvent)
    (h : 1 ≤ s.windowCount → s.shell.readyFired = true) :
    1 ≤ (sysStep p d s e).1.windowCount →
      (sysStep p d s e).1.shell.readyFired = true := by
  obtain ⟨⟨r⟩, n, t⟩ := s
  simp only at h
  cases t
  case false =>
    cases e
    case ready =>
      cases r
      case true => simp [sysStep, handleEvent, applyCmds]
      case false =>
        simp [sysStep, handleEvent, createWindow, applyCmds, applyCmd]
    case activate =>
      cases r
      case false => simpa [sysStep, handleEvent, applyCmds] using h
      case true =>
        by_cases hn : n = 0
        · subst hn
          simp [sysStep, handleEvent, createWindow, applyCmds, applyCmd]
        · simp [sysStep, handleEvent, applyCmds, hn]
    case closeWindow =>
      by_cases hn : n = 0
      · subst hn; simp [sysStep]
      · by_cases hn1 : n - 1 = 0
        · by_cases hp : p = "darwin"
          · simp [sysStep, handleEvent, hn, hn1, hp, applyCmds, applyCmd]
          · simp [sysStep, handleEvent, hn, hn1, hp, applyCmds, applyCmd]
        · intro hw
          simp only [sysStep] at hw ⊢
          simp [hn, hn1] at hw ⊢
          exact h (by omega)
  case true => simpa [sysStep] using h

/-- Auxiliary invariant over whole traces, starting from any state that
satisfies it. -/
lemma winInv_runTrace (p d : String) (es : List SysEvent) (s : SysState)
    (h : 1 ≤ s.windowCount → s.shell.readyFired = true) :
    1 ≤ (runTrace p d s es).1.windowCount →
      (runTrace p d s es).1.shell.readyFired = true := by
  induction es generalizing s with
  | nil => simpa [runTrace] using h
  | cons e es ih => exact ih (sysStep p d s e).1 (winInv_step p d s e h)

/-- A step from a state with an open window and the auxiliary invariant
issues no window-creation command, whatever the event. -/
lemma no_create_step (p d : String) (s : SysState) (e : SysEvent)
    (h : 1 ≤ s.windowCount → s.shell.readyFired = true)
    (hw : 1 ≤ s.windowCount) :
    ((sysStep p d s e).2.countP Cmd.isCreate) = 0 := by
  obtain ⟨⟨r⟩, n, t⟩ := s
  simp only at h hw
  have hr : r = true := h hw
  subst hr
  cases t
  · cases e <;>
      simp_all [sysStep, handleEvent, applyCmds, applyCmd] <;>
      split_ifs <;> simp_all [Cmd.isCreate]
  · simp [sysStep]

/-- An activation handled by a running, past-ready shell always leaves at
least one window open. -/
lemma activate_gives_window (p d : String) (s : SysState)
    (ht : s.terminated = false) (hr : s.shell.readyFired = true) :
    1 ≤ (sysStep p d s .activate).1.windowCount := by
  obtain ⟨⟨r⟩, n, t⟩ := s
  simp only at ht hr
  subst ht hr
  by_cases hn : n = 0
  · subst hn; simp [sysStep, handleEvent, applyCmds, applyCmd, createWindow]
  · simp [sysStep, handleEvent, applyCmds, hn]
    omega

/-- Claim C6: over every reachable state of the lifecycle state machine, a
reactivated still-running application has at least one window immediately
after its activation handler runs, and no event ever makes the shell issue
a window-creation command while a window is already open. -/
theorem lifecycle_invariant (p d : String) (es : List SysEvent) :
    ((runTrace p d init es).1.terminated = false →
      (runTrace p d init es).1.shell.readyFired = true →
      1 ≤ (sysStep p d (runTrace p d init es).1 .activate).1.windowCount) ∧
    (1 ≤ (runTrace p d init es).1.windowCount →
      ∀ e : SysEvent,
        ((sysStep p d (runTrace p d init es).1 e).2.countP Cmd.isCreate)
          = 0) := by
  constructor
  · intro ht hr
    exact activate_gives_window p d _ ht hr
  · intro hw e
    exact no_create_step p d _ e
      (winInv_runTrace p d es init (by simp [init])) hw

/-- Witness for C6 at the concrete trace consisting of one ready event,
platform `"linux"`, dirname `"app"`: the state after ready is running and
past ready with one open window, activation keeps a window open, and no
event issues another creation command. -/
theorem lifecycle_invariant_witness :
    1 ≤ (sysStep "linux" "app" (runTrace "linux" "app" init
      [SysEvent.ready]).1 .activate).1.windowCount ∧
    ((sysStep "linux" "app" (runTrace "linux" "app" init
      [SysEvent.ready]).1 SysEvent.activate).2.countP Cmd.isCreate) = 0 :=
  ⟨(lifecycle_invariant "linux" "app" [SysEvent.ready]).1 rfl rfl,
   (lifecycle_invariant "linux" "app" [SysEvent.ready]).2 (by decide)
     SysEvent.activate⟩

/-- Fallible model of `createWindow` (src/main.js lines 5-14): the host
calls `new BrowserWindow(...)` and `win.loadFile(...)` may each raise; the
source wraps neither in try/catch, so the body is their plain
sequencing. -/
def createWindowE (ε : Type) (newBrowserWindow : Except ε Unit)
    (loadF : Except ε Unit) : Except ε Unit := do
  newBrowserWindow
  loadF

/-- Fallible model of the `whenReady` continuation (lines 15-21): it calls
`createWindow()` directly; handler registration itself cannot fail. -/
def onReadyE (ε : Type) (cw : Except ε Unit) : Except ε Unit := cw

/-- Fallible model of the activate handler (lines 17-20): it reads
`BrowserWindow.getAllWindows().length` and calls `createWindow()` when the
count is zero, with no local handling of either call's failure. -/
def onActivateE (ε : Type) (getAllWindowsLen : Except ε Nat)
    (cw : Except ε Unit) : Except ε Unit := do
  let n ← getAllWindowsLen
  if n = 0 then cw else pure ()

/-- Fallible model of the window-all-closed handler (lines 22-25): it calls
`app.quit()` on non-darwin platforms, unguarded. -/
def onAllClosedE (ε : Type) (platform : String) (quitCall : Except ε Unit) :
    Except ε Unit :=
  if platform ≠ "darwin" then quitCall else Except.ok ()

/-- Claim C7: every operation of the shell is a direct, unguarded delegation
to the host framework: a failure raised by any host call (window
construction, content load, window-count query, quit) propagates out of
the handler unchanged, with no retry and no local recovery. -/
theorem failures_propagate (ε : Type) (err : ε) (l : Except ε Unit) :
    createWindowE ε (Except.error err) l = Except.error err ∧
    createWindowE ε (Except.ok ()) (Except.error err) = Except.error err ∧
    onReadyE ε (Except.error err) = Except.error err ∧
    onActivateE ε (Except.error err) (Except.ok ()) = Except.error err ∧
    onActivateE ε (Except.ok 0) (Except.error err) = Except.error err ∧
    onAllClosedE ε "linux" (Except.error err) = Except.error err := by
  refine ⟨rfl, rfl, rfl, rfl, rfl, rfl⟩

/-- Claim C8: before the ready event has been delivered, activation and
window-close events do nothing at all: the system stays in its initial
state and no command whatsoever is issued, because the activate handler is
only registered inside the ready continuation. -/
theorem no_window_before_ready (platform dirname : String)
    (es : List SysEvent) (h : SysEvent.ready ∉ es) :
    runTrace platform dirname init es = (init, []) := by
  induction es with
  | nil => rfl
  | cons e es ih =>
      simp only [List.mem_cons, not_or] at h
      obtain ⟨he, hes⟩ := h
      have hstep : sysStep platform dirname init e = (init, []) := by
        cases e
        · exact absurd rfl (fun hx => he hx.symm)
        · rfl
        · rfl
      simp only [runTrace, hstep, ih hes, List.nil_append]

/-- Witness for C8: a trace of two activations and a window close, none of
which is the ready event, leaves the system in its initial state with an
empty command trace. -/
theorem no_window_before_ready_witness :
    runTrace "linux" "app" init
      [SysEvent.activate, SysEvent.closeWindow, SysEvent.activate] =
      (init, []) :=
  no_window_before_ready "linux" "app"
    [SysEvent.activate, SysEvent.closeWindow, SysEvent.activate] (by decide)

/-- Every single step issues one of exactly three command lists: nothing,
the fixed window-creation sequence, or a lone quit. -/
lemma step_cmds_shape (p d : String) (s : SysState) (e : SysEvent) :
    (sysStep p d s e).2 = [] ∨ (sysStep p d s e).2 = createWindow d ∨
      (sysStep p d s e).2 = [Cmd.quit] := by
  obtain ⟨⟨r⟩, n, t⟩ := s
  cases t
  case true => left; simp [sysStep]
  case false =>
    cases e
    case ready =>
      cases r
      case false => right; left; simp [sysStep, handleEvent]
      case true => left; simp [sysStep, handleEvent]
    case activate =>
      cases r
      case false => left; simp [sysStep, handleEvent]
      case true =>
        by_cases hn : n = 0
        · right; left; simp [sysStep, handleEvent, hn]
        · left; simp [sysStep, handleEvent, hn]
    case closeWindow =>
      by_cases hn : n = 0
      · left; simp [sysStep, hn]
      · by_cases hn1 : n - 1 = 0
        · by_cases hp : p = "darwin"
          · left; simp [sysStep, handleEvent, hn, hn1, hp]
          · right; right; simp [sysStep, handleEvent, hn, hn1, hp]
        · left; simp [sysStep, hn, hn1]

/-- Every command in every reachable command trace is either part of the
fixed window-creation sequence or the quit command. -/
lemma trace_cmds_shape (p d : String) (es : List SysEvent) (s : SysState)
    (c : Cmd) (hc : c ∈ (runTrace p d s es).2) :
    c ∈ createWindow d ∨ c = Cmd.quit := by
  induction es generalizing s with
  | nil => simp [runTrace] at hc
  | cons e es ih =>
      simp only [runTrace, List.mem_append] at hc
      rcases hc with hc | hc
      · rcases step_cmds_shape p d s e with hs | hs | hs
        · rw [hs] at hc; simp at hc
        · rw [hs] at hc; exact Or.inl hc
        · rw [hs] at hc; simp at hc; exact Or.inr hc
      · exact ih (sysStep p d s e).1 hc

/-- Claim C10: every window the shell ever creates, on ready and on
activation alike, carries the identical full configuration: width 800,
height 600, and a preload script at `path.join(__dirname, 'preload.js')`;
likewise every content load in any trace is of `'dist/index.html'`. -/
theorem all_windows_identically_configured (p d : String)
    (es : List SysEvent) (c : Cmd) (hc : c ∈ (runTrace p d init es).2) :
    (c.isCreate = true →
      c = Cmd.createWindow 800 600 (pathJoin d "preload.js")) ∧
    (c.isLoad = true → c = Cmd.loadFile "dist/index.html") := by
  rcases trace_cmds_shape p d es init c hc with hx | hx
  · simp only [createWindow, List.mem_cons, List.mem_singleton] at hx
    rcases hx with hx | hx
    · subst hx; exact ⟨fun _ => rfl, fun h => by simp [Cmd.isLoad] at h⟩
    · simp at hx
      subst hx; exact ⟨fun h => by simp [Cmd.isCreate] at h, fun _ => rfl⟩
  · subst hx
    exact ⟨fun h => by simp [Cmd.isCreate] at h,
           fun h => by simp [Cmd.isLoad] at h⟩

/-- Witness for C10: the creation command of the trace consisting of one
ready event has exactly the fixed configuration. -/
theorem all_windows_identically_configured_witness :
    Cmd.createWindow 800 600 (pathJoin "app" "preload.js") =
      Cmd.createWindow 800 600 (pathJoin "app" "preload.js") :=
  (all_windows_identically_configured "linux" "app" [SysEvent.ready]
    (Cmd.createWindow 800 600 (pathJoin "app" "preload.js"))
    (by simp [runTrace, sysStep, handleEvent, init, createWindow])).1 rfl

/-- Small-step relation of the system, one constructor per control path of
src/main.js.  It relates a pre-state and an event to the post-state and
the commands issued, and is used to state that the shell is
deterministic. -/
inductive SysStepR (p d : String) :
    SysState → SysEvent → SysState → List Cmd → Prop where
  | dead (s : SysState) (e : SysEvent) (ht : s.terminated = true) :
      SysStepR p d s e s []
  | readyNew (s : SysState) (ht : s.terminated = false)
      (hr : s.shell.readyFired = false) :
      SysStepR p d s .ready
        (applyCmds { s with shell := ⟨true⟩ } (createWindow d))
        (createWindow d)
  | readyAgain (s : SysState) (ht : s.terminated = false)
      (hr : s.shell.readyFired = true) :
      SysStepR p d s .ready s []
  | activateEarly (s : SysState) (ht : s.terminated = false)
      (hr : s.shell.readyFired = false) :
      SysStepR p d s .activate s []
  | activateZero (s : SysState) (ht : s.terminated = false)
      (hr : s.shell.readyFired = true) (hn : s.windowCount = 0) :
      SysStepR p d s .activate (applyCmds s (createWindow d))
        (createWindow d)
  | activateBusy (s : SysState) (ht : s.terminated = false)
      (hr : s.shell.readyFired = true) (hn : s.windowCount ≠ 0) :
      SysStepR p d s .activate s []
  | closeNone (s : SysState) (ht : s.terminated = false)
      (hn : s.windowCount = 0) :
      SysStepR p d s .closeWindow s []
  | closeSome (s : SysState) (ht : s.terminated = false)
      (hn : 2 ≤ s.windowCount) :
      SysStepR p d s .closeWindow
        { s with windowCount := s.windowCount - 1 } []
  | closeLastKeep (s : SysState) (ht : s.terminated = false)
      (hn : s.windowCount = 1) (hp : p = "darwin") :
      SysStepR p d s .closeWindow { s with windowCount := 0 } []
  | closeLastQuit (s : SysState) (ht : s.terminated = false)
      (hn : s.windowCount = 1) (hp : p ≠ "darwin") :
      SysStepR p d s .closeWindow
        { s with windowCount := 0, terminated := true } [Cmd.quit]

/-- The step relation agrees with the step function: every related outcome
is the computed one. -/
lemma sysStepR_eq (p d : String) (s : SysState) (e : SysEvent)
    (s1 : SysState) (cs : List Cmd) (h : SysStepR p d s e s1 cs) :
    sysStep p d s e = (s1, cs) :=
  match s, e, s1, cs, h with
  | _, _, _, _, .dead sx ex ht => by simp [sysStep, ht]
  | _, _, _, _, .readyNew sx ht hr => by
      obtain ⟨⟨r⟩, n, t⟩ := sx
      simp only at ht hr
      subst ht hr
      rfl
  | _, _, _, _, .readyAgain sx ht hr => by
      obtain ⟨⟨r⟩, n, t⟩ := sx
      simp only at ht hr
      subst ht hr
      rfl
  | _, _, _, _, .activateEarly sx ht hr => by
      obtain ⟨⟨r⟩, n, t⟩ := sx
      simp only at ht hr
      subst ht hr
      rfl
  | _, _, _, _, .activateZero sx ht hr hn => by
      obtain ⟨⟨r⟩, n, t⟩ := sx
      simp only at ht hr hn
      subst ht hr hn
      rfl
  | _, _, _, _, .activateBusy sx ht hr hn => by
      obtain ⟨⟨r⟩, n, t⟩ := sx
      simp only at ht hr hn
      subst ht hr
      simp [sysStep, handleEvent, hn, applyCmds]
  | _, _, _, _, .closeNone sx ht hn => by
      obtain ⟨⟨r⟩, n, t⟩ := sx
      simp only at ht hn
      subst ht hn
      rfl
  | _, _, _, _, .closeSome sx ht hn => by
      obtain ⟨⟨r⟩, n, t⟩ := sx
      simp only at ht hn
      subst ht
      have h0 : ¬ n = 0 := by omega
      have h1 : ¬ n - 1 = 0 := by omega
      simp [sysStep, h0, h1]
  | _, _, _, _, .closeLastKeep sx ht hn hp => by
      obtain ⟨⟨r⟩, n, t⟩ := sx
      simp only at ht hn
      subst ht hn hp
      simp [sysStep, handleEvent, applyCmds]
  | _, _, _, _, .closeLastQuit sx ht hn hp => by
      obtain ⟨⟨r⟩, n, t⟩ := sx
      simp only at ht hn
      subst ht hn
      simp [sysStep, handleEvent, hp, applyCmds, applyCmd]

/-- Multi-step run relation over a sequence of host events, accumulating
the command trace. -/
inductive RunR (p d : String) :
    SysState → List SysEvent → SysState → List Cmd → Prop where
  | nil (s : SysState) : RunR p d s [] s []
  | cons (s : SysState) (e : SysEvent) (s1 : SysState) (cs1 : List Cmd)
      (es : List SysEvent) (s2 : SysState) (cs2 : List Cmd)
      (hstep : SysStepR p d s e s1 cs1) (hrun : RunR p d s1 es s2 cs2) :
      RunR p d s (e :: es) s2 (cs1 ++ cs2)

/-- The run relation is functional from any start state. -/
lemma runR_det (p d : String) (es : List SysEvent) : ∀ (s s1 s2 : SysState)
    (cs1 cs2 : List Cmd), RunR p d s es s1 cs1 → RunR p d s es s2 cs2 →
    s1 = s2 ∧ cs1 = cs2 := by
  induction es with
  | nil =>
      intro s s1 s2 cs1 cs2 h1 h2
      cases h1
      cases h2
      exact ⟨rfl, rfl⟩
  | cons e es ih =>
      intro s s1 s2 cs1 cs2 h1 h2
      cases h1
      rename_i t1 c1 c2 hstep hrun
      cases h2
      rename_i t1' c1' c2' hstep' hrun'
      have ha := sysStepR_eq p d s e t1 c1 hstep
      have hb := sysStepR_eq p d s e t1' c1' hstep'
      rw [ha] at hb
      injection hb with hbs hbc
      subst hbs hbc
      obtain ⟨hs, hc⟩ := ih t1 s1 s2 c2 c2' hrun hrun'
      exact ⟨hs, by rw [hc]⟩

/-- Claim C9: the shell is deterministic.  For a fixed platform, module
directory and sequence of host events, any two runs of the system reach
the same state and issue the identical sequence of commands to the host
framework. -/
theorem shell_deterministic (p d : String) (es : List SysEvent)
    (s1 s2 : SysState) (cs1 cs2 : List Cmd)
    (h1 : RunR p d init es s1 cs1) (h2 : RunR p d init es s2 cs2) :
    cs1 = cs2 ∧ s1 = s2 := by
  obtain ⟨hs, hc⟩ := runR_det p d es init s1 s2 cs1 cs2 h1 h2
  exact ⟨hc, hs⟩

/-- Witness for C9: two independently built runs of the one-event trace
consisting of the ready event issue the same commands and end in the same
state. -/
theorem shell_deterministic_witness :
    (createWindow "app" ++ [] : List Cmd) = createWindow "app" ++ [] ∧
    (applyCmds { init with shell := ⟨true⟩ } (createWindow "app") : SysState)
      = applyCmds { init with shell := ⟨true⟩ } (createWindow "app") :=
  shell_deterministic "linux" "app" [SysEvent.ready] _ _ _ _
    (RunR.cons init SysEvent.ready _ _ [] _ _
      (SysStepR.readyNew init rfl rfl) (RunR.nil _))
    (RunR.cons init SysEvent.ready _ _ [] _ _
      (SysStepR.readyNew init rfl rfl) (RunR.nil _))

end ElectronShell
